import Mathlib

/-!
Verification development for `src/bittensor/synapses/gpt2/model.py`
(the GPT2 language-model synapse of the bittensor repository).

The embedding is a shallow model of the Python module's runtime
semantics.  Tensors are modelled symbolically: a `TExpr` is the
computation DAG a `torch` tensor would carry, with one constructor per
tensor-producing operation that the source performs (external layers
such as the huggingface `GPT2Model` or the bittensor router appear as
opaque constructors applied to their arguments).  Python's dynamic name
binding is modelled explicitly: a local that a branch may leave unbound
is an `Option`, and evaluating an unbound name raises
`PyErr.nameError`, exactly as CPython does.

Note on the module text: line 56 of the source,
`assert isinstance(self.huggingface_config, transformers.GPT2Config)a`,
carries a stray trailing token `a`, so the module does not parse (this
is settled by claim C10, with a model of the Python assert-statement
grammar below).  Claims about runtime behaviour (C1-C9) are judged
against the runtime semantics of the module text with that stray token
removed, its evident intent.
-/

/-- Python runtime errors raised by the modelled code paths. -/
inductive PyErr where
  | nameError (missing : String)
  | assertionError (msg : String)
  | syntaxError
  deriving DecidableEq, Repr

/-- Symbolic tensor expressions: the computation DAG built by one
forward pass of `GPT2LMSynapse`.  One constructor per tensor operation
performed by the source; external components (huggingface transformers,
bittensor router / dendrite / metagraph) are opaque constructors applied
to their tensor arguments. -/
inductive TExpr where
  /-- A concrete token batch handed to `forward` (canonical test input). -/
  | inputTokens
  /-- `x.to(self.device)` (used by `forward_text`, line 157). -/
  | toDevice (x : TExpr)
  /-- `self.encoder_transformer(input_ids=..., return_dict=True).last_hidden_state` (line 213). -/
  | encoderOut (inp : TExpr)
  /-- `hidden_states[:, 0]` inside `GPT2Pooler.forward` (line 70). -/
  | firstToken (x : TExpr)
  /-- `self.dense(...)` inside `GPT2Pooler.forward` (line 71). -/
  | poolerDense (x : TExpr)
  /-- `self.activation(...)` = `nn.Tanh()` inside `GPT2Pooler.forward` (line 72). -/
  | tanh (x : TExpr)
  /-- `bittensor.metagraph.synapses()` (line 223): the peer snapshot, opaque. -/
  | synapses
  /-- `self.router.route(synapses, pooled, inputs)[0]` (line 224). -/
  | routeRequests (syn ctx inp : TExpr)
  /-- `bittensor.dendrite.forward_text(synapses, requests)` (line 225): the remote network calls. -/
  | dendriteForwardText (syn req : TExpr)
  /-- `self.router.join(responses)` (line 226): the combined remote context. -/
  | routerJoin (resp : TExpr)
  /-- `self.context_transformer(input_ids=..., return_dict=True).last_hidden_state` (line 230). -/
  | contextOut (inp : TExpr)
  /-- `x.detach()` (line 234): blocks gradient flow into `x`. -/
  | detach (x : TExpr)
  /-- `F.mse_loss(a, b)` (line 234). -/
  | mseLoss (a b : TExpr)
  /-- `torch.cat([a, b], dim=2)` (lines 239, 258). -/
  | cat2 (a b : TExpr)
  /-- `self.hidden_layer(x)` (lines 240, 259): the shared fusion projection. -/
  | hiddenLayer (x : TExpr)
  /-- `self.target_layer(x)` (lines 244, 264): the shared task head. -/
  | targetLayer (x : TExpr)
  /-- `x[..., :-1, :].contiguous()` (lines 248, 268). -/
  | shiftLogits (x : TExpr)
  /-- `x[..., 1:].contiguous()` (lines 249, 269). -/
  | shiftLabels (x : TExpr)
  /-- `x.view(-1, x.size(-1))` / `x.view(-1)` flattening (lines 251, 271). -/
  | viewFlat (x : TExpr)
  /-- `self.loss_fct(p, t)` = `torch.nn.CrossEntropyLoss()` (lines 250, 270). -/
  | crossEntropy (p t : TExpr)
  /-- `torch.tensor(0.0)` (line 204). -/
  | zeroScalar
  /-- `a + b` on loss tensors (lines 235, 252, 272). -/
  | add (a b : TExpr)
  deriving DecidableEq, Repr

/-- The dictionary returned at lines 274-283 once every name it mentions
is bound.  `local_target_loss` and `distillation_loss` are initialised
to Python `None` at lines 208-209 and so are always bound (hence
`Option TExpr`, `none` = Python `None`); the remaining fields are only
ever bound to tensors by the time the dictionary is built. -/
structure ForwardDict where
  loss : TExpr
  local_hidden : TExpr
  local_target : TExpr
  local_target_loss : Option TExpr
  remote_hidden : TExpr
  remote_target : TExpr
  remote_target_loss : TExpr
  distillation_loss : Option TExpr
  deriving DecidableEq, Repr

/-- Observable side effects of one `forward` call: whether the remote
dispatch block (lines 223-226) executed, and whether the distillation
mse (line 234) was computed. -/
structure Trace where
  dispatched : Bool
  mseComputed : Bool
  deriving DecidableEq, Repr

/-- The monad of one `forward` call: Python exceptions over the
side-effect trace.  `ExceptT` over `StateM` keeps the trace even when an
exception is raised. -/
abbrev FwdM := ExceptT PyErr (StateM Trace)

/-- Record that the remote dispatch block ran. -/
def markDispatched : FwdM Unit :=
  modify fun t => { t with dispatched := true }

/-- Record that the distillation mse was computed. -/
def markMseComputed : FwdM Unit :=
  modify fun t => { t with mseComputed := true }

/-- Evaluate a Python name that a branch may have left unbound:
CPython raises `NameError` on an unbound local/global. -/
def evalName (n : String) (v : Option TExpr) : FwdM TExpr :=
  match v with
  | none => throw (PyErr.nameError n)
  | some t => pure t

/-- `GPT2Pooler.forward` (lines 67-73): first token, dense projection,
tanh. -/
def GPT2Pooler.forward (hidden_states : TExpr) : TExpr :=
  TExpr.tanh (TExpr.poolerDense (TExpr.firstToken hidden_states))

/-- The names bound at the top level of the module
`bittensor/synapses/gpt2/model.py` (its imports and class definitions,
lines 1-8, 11, 60, 76).  Used to settle the lookup of the free name
`query` at line 221: no scope of the program binds it. -/
def moduleTopLevelNames : List String :=
  ["bittensor", "torch", "nn", "F", "transformers", "GPT2Config",
   "GPT2Model", "List", "Tuple", "Dict", "Optional",
   "GPT2LMConfig", "GPT2Pooler", "GPT2LMSynapse"]

/-- The runtime lookup of the free name `query` (line 221) in the module
as written: `query` is not a parameter of `forward`, is assigned nowhere
in its body, is not among `moduleTopLevelNames`, and is no Python
builtin, so the lookup fails (`none`).  `some b` models a hypothetical
interpreter state in which a global `query` with truthiness `b` has been
injected (CPython resolves globals at call time from a mutable dict, so
such a state is reachable by code outside this module). -/
def queryGlobalActual : Option Bool := none

/-- Sanity: the module's top level does not bind `query`. -/
theorem query_not_module_bound : moduleTopLevelNames.contains "query" = false := by decide

/-- `GPT2LMSynapse.forward` (lines 160-283), translated statement by
statement.  `inputs` is the token batch; `queryGlobal` is the runtime
binding of the free name `query` (see `queryGlobalActual`); `training`
and `remote` are the flags.  Locals that Python may leave unbound
(`remote_context`, `local_target`, `remote_hidden`, `remote_target`,
`remote_target_loss`) are `Option TExpr` with `none` = unbound. -/
def forwardM (inputs : TExpr) (queryGlobal : Option Bool)
    (training : Bool) (remote : Bool) : FwdM ForwardDict := do
  -- lines 204-209: return vars (local_output / network_output /
  -- network_target_loss are initialised but never read again).
  let loss : TExpr := TExpr.zeroScalar
  let local_target_loss : Option TExpr := none
  let distillation_loss : Option TExpr := none
  -- line 213
  let encoding : TExpr := TExpr.encoderOut inputs
  -- line 217
  let pooled : TExpr := GPT2Pooler.forward encoding
  -- lines 221-226: `if query:` — evaluating the name `query` first.
  let remote_context : Option TExpr ←
    match queryGlobal with
    | none => throw (PyErr.nameError "query")
    | some q =>
      if q then do
        markDispatched
        let syn : TExpr := TExpr.synapses
        let requests : TExpr := TExpr.routeRequests syn pooled inputs
        let responses : TExpr := TExpr.dendriteForwardText syn requests
        pure (some (TExpr.routerJoin responses))
      else
        pure none
  -- line 230
  let local_context : TExpr := TExpr.contextOut inputs
  -- lines 231-235
  let (distillation_loss, loss) ←
    if remote then
      match remote_context with
      | none => throw (PyErr.nameError "remote_context")
      | some rc => do
        markMseComputed
        let d : TExpr := TExpr.mseLoss local_context (TExpr.detach rc)
        pure (some d, TExpr.add loss d)
    else
      pure (distillation_loss, loss)
  -- lines 239-240
  let local_hidden : TExpr := TExpr.hiddenLayer (TExpr.cat2 encoding local_context)
  -- lines 241-252
  let (local_target, local_target_loss, loss) :=
    if training then
      let local_target := TExpr.targetLayer local_hidden
      let shift_logits := TExpr.shiftLogits local_target
      let shift_labels := TExpr.shiftLabels inputs
      let local_target_loss :=
        TExpr.crossEntropy (TExpr.viewFlat shift_logits) (TExpr.viewFlat shift_labels)
      (some local_target, some local_target_loss, TExpr.add loss local_target_loss)
    else
      ((none : Option TExpr), local_target_loss, loss)
  -- lines 255-272
  let (remote_hidden, remote_target, remote_target_loss, loss) ←
    if remote then
      match remote_context with
      | none => throw (PyErr.nameError "remote_context")
      | some rc => do
        let remote_hidden := TExpr.hiddenLayer (TExpr.cat2 encoding rc)
        if training then
          -- line 264: NOTE the source projects `local_hidden` here.
          let remote_target := TExpr.targetLayer local_hidden
          let shift_logits := TExpr.shiftLogits remote_target
          let shift_labels := TExpr.shiftLabels inputs
          let remote_target_loss :=
            TExpr.crossEntropy (TExpr.viewFlat shift_logits) (TExpr.viewFlat shift_labels)
          pure (some remote_hidden, some remote_target, some remote_target_loss,
                TExpr.add loss remote_target_loss)
        else
          pure (some remote_hidden, (none : Option TExpr), (none : Option TExpr), loss)
    else
      pure ((none : Option TExpr), (none : Option TExpr), (none : Option TExpr), loss)
  -- lines 274-283: the dict literal evaluates its values in order;
  -- `loss` and `local_hidden` are always bound, the rest in this order.
  let local_target_v ← evalName "local_target" local_target
  let remote_hidden_v ← evalName "remote_hidden" remote_hidden
  let remote_target_v ← evalName "remote_target" remote_target
  let remote_target_loss_v ← evalName "remote_target_loss" remote_target_loss
  pure ⟨loss, local_hidden, local_target_v, local_target_loss,
        remote_hidden_v, remote_target_v, remote_target_loss_v, distillation_loss⟩

/-- Run one `forward` call from the empty trace: the Python result (or
exception) together with the side-effect trace. -/
def forwardFull (inputs : TExpr) (queryGlobal : Option Bool)
    (training remote : Bool) : Except PyErr ForwardDict × Trace :=
  (forwardM inputs queryGlobal training remote).run.run ⟨false, false⟩

/-- `GPT2LMSynapse.forward`: the value (or exception) of one call. -/
def GPT2LMSynapse.forward (inputs : TExpr) (queryGlobal : Option Bool)
    (training remote : Bool) : Except PyErr ForwardDict :=
  (forwardFull inputs queryGlobal training remote).1

/-- The side-effect trace of one `forward` call. -/
def forwardTrace (inputs : TExpr) (queryGlobal : Option Bool)
    (training remote : Bool) : Trace :=
  (forwardFull inputs queryGlobal training remote).2

/-- `GPT2LMSynapse.forward_text` (lines 146-158):
`self.forward(inputs=inputs.to(self.device), training=False,
remote=False)['local_hidden']`. -/
def GPT2LMSynapse.forward_text (inputs : TExpr) (queryGlobal : Option Bool) :
    Except PyErr TExpr :=
  (GPT2LMSynapse.forward (TExpr.toDevice inputs) queryGlobal false false).map
    ForwardDict.local_hidden

/-- The base encoding of a batch (line 213). -/
def encodingAt (inp : TExpr) : TExpr := TExpr.encoderOut inp

/-- The local (student) context of a batch (line 230). -/
def localCtxAt (inp : TExpr) : TExpr := TExpr.contextOut inp

/-- The remote context the dispatch block builds for a batch
(lines 223-226). -/
def remoteCtxAt (inp : TExpr) : TExpr :=
  TExpr.routerJoin (TExpr.dendriteForwardText TExpr.synapses
    (TExpr.routeRequests TExpr.synapses (GPT2Pooler.forward (encodingAt inp)) inp))

/-- The local hidden representation (lines 239-240). -/
def localHiddenAt (inp : TExpr) : TExpr :=
  TExpr.hiddenLayer (TExpr.cat2 (encodingAt inp) (localCtxAt inp))

/-- The remote hidden representation (lines 258-259). -/
def remoteHiddenAt (inp : TExpr) : TExpr :=
  TExpr.hiddenLayer (TExpr.cat2 (encodingAt inp) (remoteCtxAt inp))

/-- The distillation loss (line 234): mse of the local context against
the detached remote context. -/
def distillLossAt (inp : TExpr) : TExpr :=
  TExpr.mseLoss (localCtxAt inp) (TExpr.detach (remoteCtxAt inp))

/-- The causal LM loss of some logits against the shifted tokens
(lines 248-251 and 268-271 share this shape). -/
def causalLossAt (logits inp : TExpr) : TExpr :=
  TExpr.crossEntropy (TExpr.viewFlat (TExpr.shiftLogits logits))
    (TExpr.viewFlat (TExpr.shiftLabels inp))

/-- The local task loss (lines 244-251). -/
def localTargetLossAt (inp : TExpr) : TExpr :=
  causalLossAt (TExpr.targetLayer (localHiddenAt inp)) inp

/-- The remote task loss as the code computes it (lines 264-271): the
head is applied to `local_hidden` at line 264, so the expression
coincides with `localTargetLossAt`. -/
def remoteTargetLossAt (inp : TExpr) : TExpr :=
  causalLossAt (TExpr.targetLayer (localHiddenAt inp)) inp

/-- The total loss a completing call accumulates, in the code's order:
zero, then distillation (line 235), then local task loss (line 252),
then remote task loss (line 272). -/
def codeLossAt (inp : TExpr) : TExpr :=
  TExpr.add (TExpr.add (TExpr.add TExpr.zeroScalar (distillLossAt inp))
    (localTargetLossAt inp)) (remoteTargetLossAt inp)

/-- The total loss in the order the spec's words prescribe ("local task
loss first, then remote task loss, then distillation loss"), over the
same three terms.  This definition follows the spec, for comparison with
`codeLossAt`. -/
def specOrderLossAt (inp : TExpr) : TExpr :=
  TExpr.add (TExpr.add (TExpr.add TExpr.zeroScalar (localTargetLossAt inp))
    (remoteTargetLossAt inp)) (distillLossAt inp)

/-- The dictionary returned by the one flag combination under which the
modelled `forward` completes (query bound truthy, `remote=True`,
`training=True`). -/
def completingDict (inp : TExpr) : ForwardDict :=
  ⟨codeLossAt inp, localHiddenAt inp, TExpr.targetLayer (localHiddenAt inp),
   some (localTargetLossAt inp), remoteHiddenAt inp,
   TExpr.targetLayer (localHiddenAt inp), remoteTargetLossAt inp,
   some (distillLossAt inp)⟩

/-- PyTorch autograd reachability: backpropagation from an expression
accumulates gradient into the remote context tensor (a `routerJoin`
node, the tensor the router returned) iff such a node occurs outside
every `detach` — `detach` severs the graph, so nothing below a `detach`
receives gradient. -/
def touchesRemoteLive : TExpr → Bool
  | TExpr.inputTokens => false
  | TExpr.toDevice x => touchesRemoteLive x
  | TExpr.encoderOut x => touchesRemoteLive x
  | TExpr.firstToken x => touchesRemoteLive x
  | TExpr.poolerDense x => touchesRemoteLive x
  | TExpr.tanh x => touchesRemoteLive x
  | TExpr.synapses => false
  | TExpr.routeRequests a b c =>
      touchesRemoteLive a || touchesRemoteLive b || touchesRemoteLive c
  | TExpr.dendriteForwardText a b => touchesRemoteLive a || touchesRemoteLive b
  | TExpr.routerJoin _ => true
  | TExpr.contextOut x => touchesRemoteLive x
  | TExpr.detach _ => false
  | TExpr.mseLoss a b => touchesRemoteLive a || touchesRemoteLive b
  | TExpr.cat2 a b => touchesRemoteLive a || touchesRemoteLive b
  | TExpr.hiddenLayer x => touchesRemoteLive x
  | TExpr.targetLayer x => touchesRemoteLive x
  | TExpr.shiftLogits x => touchesRemoteLive x
  | TExpr.shiftLabels x => touchesRemoteLive x
  | TExpr.viewFlat x => touchesRemoteLive x
  | TExpr.crossEntropy a b => touchesRemoteLive a || touchesRemoteLive b
  | TExpr.zeroScalar => false
  | TExpr.add a b => touchesRemoteLive a || touchesRemoteLive b

/-- The fields of a `transformers.GPT2Config` that
`GPT2LMConfig.run_type_checks` (lines 55-58) reads, plus whether the
object is in fact a `GPT2Config` instance (the isinstance check of
line 56). -/
structure HFConfig where
  isGPT2Config : Bool
  n_embd : Nat
  vocab_size : Nat
  deriving DecidableEq, Repr

/-- A successfully constructed `GPT2LMConfig` object (lines 51-53). -/
structure GPT2LMConfigObj where
  huggingface_config : HFConfig
  deriving DecidableEq, Repr

/-- `GPT2LMConfig.run_type_checks` (lines 55-58): three asserts, in
source order — isinstance, then `n_embd == bittensor.__network_dim__`,
then `vocab_size == bittensor.__vocab_size__`.  A Python `assert cond`
raises `AssertionError` when `cond` is false.  `networkDim` and
`vocabSize` stand for the process-wide constants
`bittensor.__network_dim__` and `bittensor.__vocab_size__`. -/
def GPT2LMConfig.run_type_checks (networkDim vocabSize : Nat)
    (hf : HFConfig) : Except PyErr Unit :=
  if hf.isGPT2Config = false then
    Except.error (PyErr.assertionError "isinstance")
  else if hf.n_embd ≠ networkDim then
    Except.error (PyErr.assertionError "GPT embedding dim mismatch")
  else if hf.vocab_size ≠ vocabSize then
    Except.error (PyErr.assertionError "GPT vocab size mismatch")
  else
    Except.ok ()

/-- The default huggingface config (lines 31-49): built with
`vocab_size=bittensor.__vocab_size__` and `n_embd=bittensor.__network_dim__`,
and genuinely a `GPT2Config`. -/
def GPT2LMConfig.defaultHuggingfaceConfig (networkDim vocabSize : Nat) : HFConfig :=
  ⟨true, networkDim, vocabSize⟩

/-- `GPT2LMConfig.__init__` (lines 51-53): take the `huggingface_config`
keyword (defaulting), then `run_type_checks`.  The constructor raises —
yielding no object at all — or returns the fully-initialised object. -/
def GPT2LMConfig.init (networkDim vocabSize : Nat) (kwarg : Option HFConfig) :
    Except PyErr GPT2LMConfigObj :=
  let hf := kwarg.getD (GPT2LMConfig.defaultHuggingfaceConfig networkDim vocabSize)
  match GPT2LMConfig.run_type_checks networkDim vocabSize hf with
  | Except.error e => Except.error e
  | Except.ok _ => Except.ok ⟨hf⟩

/-- A constructed `GPT2LMSynapse`, as far as the config claims reach. -/
structure SynapseObj where
  config : GPT2LMConfigObj
  deriving DecidableEq, Repr

/-- `GPT2LMSynapse.__init__`, lines 113-116: use the passed config or
construct the default `GPT2LMConfig()` (whose constructor validates). -/
def GPT2LMSynapse.init (networkDim vocabSize : Nat)
    (config : Option GPT2LMConfigObj) : Except PyErr SynapseObj :=
  match config with
  | some c => Except.ok ⟨c⟩
  | none =>
    match GPT2LMConfig.init networkDim vocabSize none with
    | Except.error e => Except.error e
    | Except.ok c => Except.ok ⟨c⟩

/-- Tokens of the Python source line 56 and its neighbours.  `kwAssert`
is the keyword; `name` any identifier token. -/
inductive PyTok where
  | kwAssert
  | name (s : String)
  | dot
  | comma
  | lparen
  | rparen
  | newline
  deriving DecidableEq, Repr

mutual

/-- Modelled from the Python language grammar (external to this
repository): recursive-descent recogniser for Python expressions over
the token alphabet occurring on source line 56 (identifiers, `.`, `,`,
parentheses).  Over this alphabet Python's `test` production reduces to
`atom trailer*` with `atom := NAME | '(' [testlist] ')'` and
`trailer := '.' NAME | '(' [testlist] ')'`; this recogniser accepts at
least every such prefix (including tuple atoms, empty argument lists and
trailing commas), returning the unconsumed suffix. -/
def parseTest (fuel : Nat) (ts : List PyTok) : Option (List PyTok) :=
  match fuel, ts with
  | 0, _ => none
  | Nat.succ f, PyTok.name _ :: rest => parseTrailers f rest
  | Nat.succ f, PyTok.lparen :: PyTok.rparen :: rest => parseTrailers f rest
  | Nat.succ f, PyTok.lparen :: rest =>
    match parseTestList f rest with
    | some (PyTok.rparen :: rest2) => parseTrailers f rest2
    | _ => none
  | _, _ => none

/-- Zero or more trailers (`.NAME` attribute access or `( [testlist] )`
call) after an atom; returns the unconsumed suffix. -/
def parseTrailers (fuel : Nat) (ts : List PyTok) : Option (List PyTok) :=
  match fuel, ts with
  | 0, _ => none
  | Nat.succ f, PyTok.dot :: PyTok.name _ :: rest => parseTrailers f rest
  | Nat.succ f, PyTok.lparen :: PyTok.rparen :: rest => parseTrailers f rest
  | Nat.succ f, PyTok.lparen :: rest =>
    match parseTestList f rest with
    | some (PyTok.rparen :: rest2) => parseTrailers f rest2
    | _ => none
  | _, ts => some ts

/-- `testlist := test (',' test)* [',']`; also serves as the positional
argument list of a call over this alphabet. -/
def parseTestList (fuel : Nat) (ts : List PyTok) : Option (List PyTok) :=
  match fuel with
  | 0 => none
  | Nat.succ f =>
    match parseTest f ts with
    | some (PyTok.comma :: rest) =>
      match rest with
      | PyTok.rparen :: _ => some rest
      | PyTok.newline :: _ => some rest
      | _ => parseTestList f rest
    | some rest => some rest
    | none => none

end

/-- Modelled from the Python language grammar:
`assert_stmt := 'assert' test [',' test] NEWLINE` as a full logical
line. -/
def parseAssertStmt (ts : List PyTok) : Bool :=
  match ts with
  | PyTok.kwAssert :: rest =>
    match parseTest 100 rest with
    | some [PyTok.newline] => true
    | some (PyTok.comma :: rest2) =>
      match parseTest 100 rest2 with
      | some [PyTok.newline] => true
      | _ => false
    | _ => false
  | _ => false

/-- The token sequence of source line 56:
`assert isinstance(self.huggingface_config, transformers.GPT2Config)a`. -/
def line56Tokens : List PyTok :=
  [PyTok.kwAssert, PyTok.name "isinstance", PyTok.lparen, PyTok.name "self",
   PyTok.dot, PyTok.name "huggingface_config", PyTok.comma,
   PyTok.name "transformers", PyTok.dot, PyTok.name "GPT2Config",
   PyTok.rparen, PyTok.name "a", PyTok.newline]

/-- Line 56 with the stray trailing token `a` removed. -/
def line56TokensRepaired : List PyTok :=
  [PyTok.kwAssert, PyTok.name "isinstance", PyTok.lparen, PyTok.name "self",
   PyTok.dot, PyTok.name "huggingface_config", PyTok.comma,
   PyTok.name "transformers", PyTok.dot, PyTok.name "GPT2Config",
   PyTok.rparen, PyTok.newline]

/-- CPython compiles an entire module before executing any of it, so the
module loads only if every statement parses; line 56 is one of them.
`moduleLoad` models that gate on the statement at line 56. -/
def moduleLoad : Except PyErr Unit :=
  if parseAssertStmt line56Tokens then Except.ok () else Except.error PyErr.syntaxError

/-- Evaluation: with the module's actual globals (`query` unbound) every
`forward` call raises `NameError` at line 221. -/
theorem forward_err_query (inp : TExpr) (t r : Bool) :
    GPT2LMSynapse.forward inp none t r = Except.error (PyErr.nameError "query") := rfl

/-- Evaluation: `query` bound falsy and `remote=True` — line 234 reads
the unbound `remote_context`. -/
theorem forward_err_remote_context (inp : TExpr) (t : Bool) :
    GPT2LMSynapse.forward inp (some false) t true =
      Except.error (PyErr.nameError "remote_context") := rfl

/-- Evaluation: `query` bound falsy, `remote=False`, `training=True` —
the return dict reads the unbound `remote_hidden`. -/
theorem forward_err_remote_hidden_qfalse (inp : TExpr) :
    GPT2LMSynapse.forward inp (some false) true false =
      Except.error (PyErr.nameError "remote_hidden") := rfl

/-- Evaluation: `query` bound falsy, `remote=False`, `training=False` —
the return dict reads the unbound `local_target`. -/
theorem forward_err_local_target_qfalse (inp : TExpr) :
    GPT2LMSynapse.forward inp (some false) false false =
      Except.error (PyErr.nameError "local_target") := rfl

/-- Evaluation: `query` bound truthy, `remote=False`, `training=True` —
the return dict reads the unbound `remote_hidden`. -/
theorem forward_err_remote_hidden_qtrue (inp : TExpr) :
    GPT2LMSynapse.forward inp (some true) true false =
      Except.error (PyErr.nameError "remote_hidden") := rfl

/-- Evaluation: `query` bound truthy, `remote=False`, `training=False` —
the return dict reads the unbound `local_target`. -/
theorem forward_err_local_target_qtrue_rfalse (inp : TExpr) :
    GPT2LMSynapse.forward inp (some true) false false =
      Except.error (PyErr.nameError "local_target") := rfl

/-- Evaluation: `query` bound truthy, `remote=True`, `training=False` —
the return dict reads the unbound `local_target`. -/
theorem forward_err_local_target_qtrue_rtrue (inp : TExpr) :
    GPT2LMSynapse.forward inp (some true) false true =
      Except.error (PyErr.nameError "local_target") := rfl

/-- Evaluation: the single completing flag combination — `query` bound
truthy, `remote=True`, `training=True`. -/
theorem forward_completing (inp : TExpr) :
    GPT2LMSynapse.forward inp (some true) true true =
      Except.ok (completingDict inp) := rfl

/-- A `forward` call returns a dictionary only when `query` is bound
truthy and both flags are true, and then returns `completingDict`. -/
theorem forward_ok_characterisation (inp : TExpr) (q : Option Bool) (t r : Bool)
    (d : ForwardDict) (h : GPT2LMSynapse.forward inp q t r = Except.ok d) :
    q = some true ∧ t = true ∧ r = true ∧ d = completingDict inp := by
  cases q with
  | none =>
    rw [forward_err_query] at h
    exact Except.noConfusion h
  | some b =>
    cases b with
    | false =>
      cases r with
      | true =>
        rw [forward_err_remote_context] at h
        exact Except.noConfusion h
      | false =>
        cases t with
        | true =>
          rw [forward_err_remote_hidden_qfalse] at h
          exact Except.noConfusion h
        | false =>
          rw [forward_err_local_target_qfalse] at h
          exact Except.noConfusion h
    | true =>
      cases r with
      | false =>
        cases t with
        | true =>
          rw [forward_err_remote_hidden_qtrue] at h
          exact Except.noConfusion h
        | false =>
          rw [forward_err_local_target_qtrue_rfalse] at h
          exact Except.noConfusion h
      | true =>
        cases t with
        | false =>
          rw [forward_err_local_target_qtrue_rtrue] at h
          exact Except.noConfusion h
        | true =>
          rw [forward_completing] at h
          injection h with h
          exact ⟨rfl, rfl, rfl, h.symm⟩

/-- Gradient reachability of the completing run's total loss: once no
remote-context (`routerJoin`) node occurs in the inputs, none occurs
outside a `detach` in the accumulated loss. -/
theorem touchesRemoteLive_codeLoss (inp : TExpr)
    (hinp : touchesRemoteLive inp = false) :
    touchesRemoteLive (codeLossAt inp) = false := by
  simp [codeLossAt, distillLossAt, localTargetLossAt, remoteTargetLossAt,
        causalLossAt, localCtxAt, localHiddenAt, encodingAt,
        touchesRemoteLive, hinp]

/-- C1: the claim says that with zero responding peers,
`forward(inputs, training, remote=True)` returns a result whose
`remote_hidden`, `remote_target_loss` and `distillation_loss` are marked
absent and whose `loss` is the local-only loss.  On the code, the call
raises `NameError` on the unbound name `query` (line 221) before any
dispatch — no zero-peer fallback exists and no result is ever
returned. -/
theorem C1_zero_peer_fallback_eval :
    GPT2LMSynapse.forward TExpr.inputTokens queryGlobalActual true true =
      Except.error (PyErr.nameError "query") := rfl

/-- C2: the claim says the remote path runs iff `remote=True`.  On the
code the dispatch block is gated by the unbound global `query`: with the
module's actual globals a `remote=True` call raises `NameError` and the
dispatch never executes, while with a truthy `query` binding injected
the dispatch executes even when `remote=False`. -/
theorem C2_remote_gating_eval :
    GPT2LMSynapse.forward TExpr.inputTokens queryGlobalActual true true =
      Except.error (PyErr.nameError "query")
    ∧ (forwardTrace TExpr.inputTokens queryGlobalActual true true).dispatched = false
    ∧ (forwardTrace TExpr.inputTokens (some true) true false).dispatched = true :=
  ⟨rfl, rfl, rfl⟩

/-- C3: the claim says `training=False` yields a result with both target
losses absent.  On the code every `training=False` call raises
`NameError` instead of returning: at `query` with the module's actual
globals, and at the unbound name `local_target` in the return dictionary
even when a `query` binding is injected. -/
theorem C3_training_false_eval :
    GPT2LMSynapse.forward TExpr.inputTokens queryGlobalActual false false =
      Except.error (PyErr.nameError "query")
    ∧ GPT2LMSynapse.forward TExpr.inputTokens queryGlobalActual false true =
      Except.error (PyErr.nameError "query")
    ∧ GPT2LMSynapse.forward TExpr.inputTokens (some true) false true =
      Except.error (PyErr.nameError "local_target")
    ∧ GPT2LMSynapse.forward TExpr.inputTokens (some true) false false =
      Except.error (PyErr.nameError "local_target") :=
  ⟨rfl, rfl, rfl, rfl⟩

/-- C4: the claim (and the source's own comment at lines 262-263) says
the remote target logits are the shared head applied to `remote_hidden`.
In the one completing run the code instead applies the head to
`local_hidden` (line 264), which differs from the head applied to
`remote_hidden`. -/
theorem C4_remote_target_uses_local_hidden :
    (GPT2LMSynapse.forward TExpr.inputTokens (some true) true true).map
        ForwardDict.remote_target =
      Except.ok (TExpr.targetLayer (localHiddenAt TExpr.inputTokens))
    ∧ TExpr.targetLayer (localHiddenAt TExpr.inputTokens) ≠
      TExpr.targetLayer (remoteHiddenAt TExpr.inputTokens) := by
  refine ⟨rfl, ?_⟩
  decide

/-- C5 counterexample: at the concrete completing call the accumulated
loss is in the code's order (distillation first, then local, then
remote), which is not the spec's order (local, remote, distillation). -/
theorem C5_order_counterexample :
    (GPT2LMSynapse.forward TExpr.inputTokens (some true) true true).map
        ForwardDict.loss =
      Except.ok (codeLossAt TExpr.inputTokens)
    ∧ codeLossAt TExpr.inputTokens ≠ specOrderLossAt TExpr.inputTokens := by
  refine ⟨rfl, ?_⟩
  decide

/-- C5 (amended): whenever `forward` returns a result, each loss term
was added exactly when computed, and the composition order is
deterministic and fixed as: distillation loss first, then local task
loss, then remote task loss. -/
theorem C5_loss_order (inp : TExpr) (q : Option Bool) (training remote : Bool)
    (d : ForwardDict)
    (h : GPT2LMSynapse.forward inp q training remote = Except.ok d) :
    q = some true ∧ training = true ∧ remote = true ∧
      d.loss = TExpr.add (TExpr.add (TExpr.add TExpr.zeroScalar
        (distillLossAt inp)) (localTargetLossAt inp)) (remoteTargetLossAt inp) := by
  obtain ⟨hq, ht, hr, hd⟩ := forward_ok_characterisation inp q training remote d h
  subst hd
  exact ⟨hq, ht, hr, rfl⟩

/-- C5 witness: the amended order theorem at the concrete completing
call. -/
theorem C5_loss_order_witness :
    Option.some true = Option.some true ∧ true = true ∧ true = true ∧
      (completingDict TExpr.inputTokens).loss =
        TExpr.add (TExpr.add (TExpr.add TExpr.zeroScalar
          (distillLossAt TExpr.inputTokens)) (localTargetLossAt TExpr.inputTokens))
          (remoteTargetLossAt TExpr.inputTokens) :=
  C5_loss_order TExpr.inputTokens (some true) true true
    (completingDict TExpr.inputTokens) rfl

/-- C6: constructing a `GPT2LMConfig` whose huggingface config has an
embedding dimension (or vocabulary size) different from the process-wide
constants fails at construction with the `run_type_checks` assertion
(the realisation of the spec's `ConfigMismatchError`) and yields no
object; with matching values construction succeeds, and the default
synapse construction succeeds. -/
theorem C6_config_validation (networkDim vocabSize : Nat) (hf : HFConfig)
    (hinst : hf.isGPT2Config = true) :
    (hf.n_embd ≠ networkDim →
      GPT2LMConfig.init networkDim vocabSize (some hf) =
        Except.error (PyErr.assertionError "GPT embedding dim mismatch"))
    ∧ (hf.n_embd = networkDim → hf.vocab_size ≠ vocabSize →
      GPT2LMConfig.init networkDim vocabSize (some hf) =
        Except.error (PyErr.assertionError "GPT vocab size mismatch"))
    ∧ (hf.n_embd = networkDim → hf.vocab_size = vocabSize →
      GPT2LMConfig.init networkDim vocabSize (some hf) = Except.ok ⟨hf⟩)
    ∧ GPT2LMSynapse.init networkDim vocabSize none =
        Except.ok ⟨⟨GPT2LMConfig.defaultHuggingfaceConfig networkDim vocabSize⟩⟩ := by
  refine ⟨?_, ?_, ?_, ?_⟩
  · intro hne
    simp [GPT2LMConfig.init, GPT2LMConfig.run_type_checks, hinst, hne]
  · intro he hv
    simp [GPT2LMConfig.init, GPT2LMConfig.run_type_checks, hinst, he, hv]
  · intro he hv
    simp [GPT2LMConfig.init, GPT2LMConfig.run_type_checks, hinst, he, hv]
  · simp [GPT2LMSynapse.init, GPT2LMConfig.init, GPT2LMConfig.run_type_checks,
          GPT2LMConfig.defaultHuggingfaceConfig]

/-- C6 witness: the validation theorem at concrete constants (dimension
512, vocabulary 50257) with a mismatching and a matching config. -/
theorem C6_config_validation_witness :
    GPT2LMConfig.init 512 50257 (some ⟨true, 256, 50257⟩) =
      Except.error (PyErr.assertionError "GPT embedding dim mismatch")
    ∧ GPT2LMConfig.init 512 50257 (some ⟨true, 512, 50257⟩) =
      Except.ok ⟨⟨true, 512, 50257⟩⟩ :=
  ⟨(C6_config_validation 512 50257 ⟨true, 256, 50257⟩ rfl).1 (by decide),
   (C6_config_validation 512 50257 ⟨true, 512, 50257⟩ rfl).2.2.1 rfl rfl⟩

/-- C7: the claim says `forward_text` returns the local hidden tensor
without error.  On the code `forward_text` delegates to
`forward(training=False, remote=False)` and therefore raises `NameError`
on the unbound name `query`; it never returns a tensor. -/
theorem C7_forward_text_eval :
    GPT2LMSynapse.forward_text TExpr.inputTokens queryGlobalActual =
      Except.error (PyErr.nameError "query") := rfl

/-- C8: in every completing `forward` call the distillation loss is the
mse of the local context against the detached remote context, and
backpropagation from the returned total loss reaches no remote-context
tensor outside a `detach`; and whenever the remote dispatch did not run,
no distillation loss was computed. -/
theorem C8_distillation_detached :
    (∀ (inp : TExpr) (q : Option Bool) (training remote : Bool) (d : ForwardDict),
      GPT2LMSynapse.forward inp q training remote = Except.ok d →
      touchesRemoteLive inp = false →
      d.distillation_loss =
        some (TExpr.mseLoss (localCtxAt inp) (TExpr.detach (remoteCtxAt inp)))
      ∧ touchesRemoteLive d.loss = false)
    ∧ (∀ (inp : TExpr) (q : Option Bool) (training remote : Bool),
      (forwardTrace inp q training remote).dispatched = false →
      (forwardTrace inp q training remote).mseComputed = false) := by
  constructor
  · intro inp q training remote d h hinp
    obtain ⟨-, -, -, hd⟩ := forward_ok_characterisation inp q training remote d h
    subst hd
    exact ⟨rfl, touchesRemoteLive_codeLoss inp hinp⟩
  · intro inp q training remote h
    cases q with
    | none => rfl
    | some b =>
      cases b with
      | false =>
        cases training <;> cases remote <;> rfl
      | true =>
        cases training <;> cases remote <;>
          exact absurd h (by intro hc; exact Bool.noConfusion hc)

/-- C8 witness: the distillation theorem at the concrete completing call
and the trace theorem at the module's actual globals. -/
theorem C8_distillation_detached_witness :
    ((completingDict TExpr.inputTokens).distillation_loss =
      some (TExpr.mseLoss (localCtxAt TExpr.inputTokens)
        (TExpr.detach (remoteCtxAt TExpr.inputTokens)))
    ∧ touchesRemoteLive (completingDict TExpr.inputTokens).loss = false)
    ∧ (forwardTrace TExpr.inputTokens queryGlobalActual true true).mseComputed = false :=
  ⟨C8_distillation_detached.1 TExpr.inputTokens (some true) true true
      (completingDict TExpr.inputTokens) rfl rfl,
   C8_distillation_detached.2 TExpr.inputTokens queryGlobalActual true true rfl⟩

/-- C9: for every input and every combination of the flags, `forward`
with the module's actual globals (which bind no name `query`) raises
`NameError` on `query` before the remote/local branching completes, and
so does `forward_text`; no call ever returns a result. -/
theorem C9_forward_always_name_error :
    ∀ (inputs : TExpr) (training remote : Bool),
      GPT2LMSynapse.forward inputs queryGlobalActual training remote =
        Except.error (PyErr.nameError "query")
      ∧ GPT2LMSynapse.forward_text inputs queryGlobalActual =
        Except.error (PyErr.nameError "query") :=
  fun _ _ _ => ⟨rfl, rfl⟩

/-- C10: the token sequence of source line 56 (the isinstance assertion
with its stray trailing token `a`) is not a valid Python assert
statement, while the same sequence without the stray token is; hence the
module fails to compile and loading it yields a syntax error, making
none of its operations executable. -/
theorem C10_module_syntax_invalid :
    parseAssertStmt line56Tokens = false
    ∧ parseAssertStmt line56TokensRepaired = true
    ∧ moduleLoad = Except.error PyErr.syntaxError :=
  ⟨rfl, rfl, rfl⟩
